import Mathlib

/-!
Verification of the subset-hierarchy engine of `creador_cojuntos.py`
(class `DataFilterManager`).

A pandas DataFrame is embedded as a list of rows, each row an association
list from column name to cell value (strings).  The manager state carries
the original snapshot, the working principal table, the key column, the
named-subset store and the undo history, exactly the five attributes the
Python constructor sets.  Operations that can raise in Python return a
pair of an `Except` outcome and the (possibly mutated) state, so that the
absence of partial mutation before a raise is a provable statement rather
than a modelling artifact.  The history stack is kept most-recent-first;
Python appends at the end and pops from the end, which is the same stack.
-/

namespace CreadorConjuntos

/-- A row of the table: an association list from column name to value. -/
abbrev Row := List (String × String)

/-- Cell lookup in a row (`row[column]`). -/
def rowGet (r : Row) (c : String) : Option String :=
  (r.find? (fun p => p.1 = c)).map (fun p => p.2)

/-- The exception taxonomy: `duplicateName` is the `ValueError` of
`filtrar_por_palabra` line 94, `notFound` the `KeyError` of the
existence checks, `columnNotFound` the error of filtering on an
unknown column. -/
inductive Err where
  | duplicateName : Err
  | notFound : Err
  | columnNotFound : Err
deriving DecidableEq, Repr

deriving instance DecidableEq for Except

/-- A stored subset: its rows plus the metadata the Python code bolts onto
the DataFrame as attributes (`_parent`, `_aplicado`, `_palabras_excluidas`).
A `parent` of `none` models both an absent `_parent` attribute and an
explicit `None` value. -/
structure Subset where
  rows : List Row
  parent : Option String
  aplicado : Bool
  excluidas : List String
deriving DecidableEq, Repr

/-- A freshly filtered subset before any attribute is set. -/
def mkSubset (rows : List Row) (parent : Option String) : Subset :=
  { rows := rows, parent := parent, aplicado := false, excluidas := [] }

/-- The subset registry `self.subsets`: a Python dict, embedded as an
association list with in-place update. -/
abbrev Store := List (String × Subset)

/-- Dict lookup `self.subsets[n]`. -/
def storeGet : Store → String → Option Subset
  | [], _ => none
  | (k, v) :: t, n => if k = n then some v else storeGet t n

/-- Dict membership test `n in self.subsets`. -/
def storeContains (s : Store) (n : String) : Bool :=
  (storeGet s n).isSome

/-- Dict update `self.subsets[n] = v`: replaces an existing binding in
place, otherwise appends. -/
def storeInsert : Store → String → Subset → Store
  | [], n, v => [(n, v)]
  | (k, w) :: t, n, v =>
      if k = n then (n, v) :: t else (k, w) :: storeInsert t n v

/-- Python truthiness of the `_parent` attribute: the cascade step runs
only when the attribute exists and is a non-empty string
(`hasattr(subset, _parent) and subset._parent`). -/
def parentTruthy : Option String → Bool
  | none => false
  | some p => p ≠ ""

/-- Whether `p` is a leading segment of `v` (character lists). -/
def esPrefijo : List Char → List Char → Bool
  | [], _ => true
  | _ :: _, [] => false
  | a :: p, b :: v => a = b && esPrefijo p v

/-- Whether `p` occurs contiguously inside `v` (substring test on
character lists). -/
def contieneSub : List Char → List Char → Bool
  | v, p =>
    match v with
    | [] => p.isEmpty
    | _ :: t => esPrefijo p v || contieneSub t p

/-- Lower-casing for the case-insensitive policy (Python str.lower),
written on the character list so that proofs can evaluate it. -/
def aMinusculas (s : String) : String :=
  String.mk (s.data.map Char.toLower)

/-- One keyword against one cell value, under the case and exact-match
policy. -/
def palabraCoincide (valor palabra : String) (case_sensitive match_exacto : Bool) : Bool :=
  let v := if case_sensitive then valor else aMinusculas valor
  let p := if case_sensitive then palabra else aMinusculas palabra
  if match_exacto then v = p else contieneSub v.data p.data

/-- OR/AND combination of the keywords against one row. -/
def filaCoincide (r : Row) (columna : String) (palabras : List String)
    (condicional : String) (case_sensitive match_exacto : Bool) : Bool :=
  let valor := (rowGet r columna).getD ""
  if condicional = "AND" then
    palabras.all (fun p => palabraCoincide valor p case_sensitive match_exacto)
  else
    palabras.any (fun p => palabraCoincide valor p case_sensitive match_exacto)

/-- Modelled from the spec: `filtro_palabras` (the RowFilter collaborator)
is imported by `creador_cojuntos.py` but its definition is not under
`src/`.  The spec says it returns the subsequence of `rows` whose value in
`columna`, compared under the given case and match policy, satisfies the
OR/AND combination of the keywords, and that an unknown column fails with
`ColumnNotFoundError`; a column is known when every row carries it. -/
def filtro_palabras (df : List Row) (columna : String) (palabras : List String)
    (condicional : String) (case_sensitive match_exacto : Bool) :
    Except Err (List Row) :=
  if df.all (fun r => (rowGet r columna).isSome) then
    .ok (df.filter
      (fun r => filaCoincide r columna palabras condicional case_sensitive match_exacto))
  else
    .error .columnNotFound

/-- Modelled from the spec: `drop_lines_key` (the KeySetDiff collaborator)
is imported by `creador_cojuntos.py` but its definition is not under
`src/`.  The spec says it returns the target rows minus every row whose
key-column value appears among the reference rows key-column values, with
exact value equality on the key. -/
def drop_lines_key (df_target df_reference : List Row) (column_key : String) :
    List Row :=
  df_target.filter
    (fun r => !(df_reference.any (fun q => rowGet q column_key = rowGet r column_key)))

/-- The engine state: the five attributes set by
`DataFilterManager.__init__`. -/
structure DataFilterManager where
  df_original : List Row
  df_principal : List Row
  columna_id : String
  subsets : Store
  historial : List (List Row)
deriving DecidableEq, Repr

/-- `DataFilterManager.__init__` (lines 28-33): snapshot the dataset into
both `df_original` and `df_principal` and register the `principal`
alias. -/
def init (df : List Row) (columna_id : String) : DataFilterManager :=
  { df_original := df
    df_principal := df
    columna_id := columna_id
    subsets := [("principal", mkSubset df none)]
    historial := [] }

/-- `restaurar_anterior` (lines 35-54): pop the history stack if
non-empty and restore `df_principal` and the `principal` alias to the
popped snapshot; with empty history print a notice and change nothing. -/
def restaurar_anterior (m : DataFilterManager) : DataFilterManager :=
  match m.historial with
  | [] => m
  | h :: t =>
      { m with
        df_principal := h
        subsets := storeInsert m.subsets "principal" (mkSubset h none)
        historial := t }

/-- `restaurar_todo` (lines 56-72): restore `df_principal` to the
original snapshot, reinstate a store holding only the `principal` alias,
and clear the history. -/
def restaurar_todo (m : DataFilterManager) : DataFilterManager :=
  { m with
    df_principal := m.df_original
    subsets := [("principal", mkSubset m.df_original none)]
    historial := [] }

/-- `filtrar_por_palabra` (lines 74-114): raise `duplicateName` when the
name is already registered (the check precedes every mutation), choose
the source table (`df_principal`, or the `ultimo` alias falling back to
`df_principal`), filter, then register the subset under its name, set its
parent attribute and refresh the `ultimo` alias. -/
def filtrar_por_palabra (m : DataFilterManager) (columna : String)
    (palabras : List String) (nombre : String) (condicional : String)
    (case_sensitive match_exacto usar_principal : Bool)
    (parent : Option String) : Except Err (List Row) × DataFilterManager :=
  if storeContains m.subsets nombre then
    (.error .duplicateName, m)
  else
    let df_origen :=
      if usar_principal then m.df_principal
      else ((storeGet m.subsets "ultimo").map Subset.rows).getD m.df_principal
    match filtro_palabras df_origen columna palabras condicional case_sensitive match_exacto with
    | .error e => (.error e, m)
    | .ok filas =>
        let sub := mkSubset filas parent
        (.ok filas,
          { m with
            subsets := storeInsert (storeInsert m.subsets nombre sub) "ultimo" sub })

/-- `filtrar_subset` (lines 164-209): raise `notFound` when the source
subset is absent; otherwise save `df_principal`, swap the source subset
in as the working table, delegate to `filtrar_por_palabra` with the
parent link set, and restore `df_principal` unconditionally (the Python
`try/finally`), on success and on failure alike. -/
def filtrar_subset (m : DataFilterManager) (nombre_origen columna : String)
    (palabras : List String) (nombre : String) (condicional : String)
    (case_sensitive match_exacto : Bool) :
    Except Err (List Row) × DataFilterManager :=
  if storeContains m.subsets nombre_origen then
    let df_origen_guardado := m.df_principal
    let m1 := { m with
      df_principal := ((storeGet m.subsets nombre_origen).map Subset.rows).getD m.df_principal }
    let r := filtrar_por_palabra m1 columna palabras nombre condicional
      case_sensitive match_exacto true (some nombre_origen)
    (r.1, { r.2 with df_principal := df_origen_guardado })
  else
    (.error .notFound, m)

/-- `aplicar_filtro` (lines 211-271): raise `notFound` on an unknown
name; no-op on an empty subset; otherwise push a snapshot of
`df_principal` onto the history, remove the subset rows from
`df_principal` by key (refreshing the `principal` alias), cascade the
same removal into the parent subset when requested, the parent attribute
is truthy and the parent still exists, and finally mark the subset
applied. -/
def aplicar_filtro (m : DataFilterManager) (nombre_subset : String)
    (propagar_a_padre : Bool) : Except Err Unit × DataFilterManager :=
  match storeGet m.subsets nombre_subset with
  | none => (.error .notFound, m)
  | some subset =>
      if subset.rows.isEmpty then
        (.ok (), m)
      else
        let m1 := { m with historial := m.df_principal :: m.historial }
        let nuevoP := drop_lines_key m1.df_principal subset.rows m.columna_id
        let m2 := { m1 with
          df_principal := nuevoP
          subsets := storeInsert m1.subsets "principal" (mkSubset nuevoP none) }
        let m3 :=
          if propagar_a_padre && parentTruthy subset.parent then
            match subset.parent with
            | none => m2
            | some parent_name =>
                match storeGet m2.subsets parent_name with
                | none => m2
                | some padre =>
                    { m2 with
                      subsets := storeInsert m2.subsets parent_name
                        { padre with
                          rows := drop_lines_key padre.rows subset.rows m.columna_id } }
          else m2
        let m4 :=
          match storeGet m3.subsets nombre_subset with
          | none => m3
          | some sb => { m3 with
              subsets := storeInsert m3.subsets nombre_subset { sb with aplicado := true } }
        (.ok (), m4)

/-- `agregar_excluidos` (lines 147-162): raise `notFound` on an unknown
name, otherwise extend the exclusion-word metadata of the subset. -/
def agregar_excluidos (m : DataFilterManager) (nombre_subset : String)
    (palabras : List String) : Except Err Unit × DataFilterManager :=
  match storeGet m.subsets nombre_subset with
  | none => (.error .notFound, m)
  | some sb =>
      (.ok (),
        { m with
          subsets := storeInsert m.subsets nombre_subset
            { sb with excluidas := sb.excluidas ++ palabras } })

/-- `get_subset` (lines 303-319): fetch a stored subset by name. -/
def get_subset (m : DataFilterManager) (nombre : String) :
    Except Err (List Row) :=
  match storeGet m.subsets nombre with
  | none => .error .notFound
  | some sb => .ok sb.rows

/-- `get_principal` (lines 273-282): the current working table. -/
def get_principal (m : DataFilterManager) : List Row :=
  m.df_principal

/-- The store invariant behind the `principal` alias: the entry
registered under the name `principal` carries exactly the rows of the
current working table `df_principal`. -/
def principalInv (m : DataFilterManager) : Prop :=
  (storeGet m.subsets "principal").map Subset.rows = some m.df_principal

/-! ### Concrete fixtures used by the witness theorems -/

def filaUno : Row := [("id", "1"), ("descripcion", "x")]

def filaDos : Row := [("id", "2"), ("descripcion", "y")]

def filaTres : Row := [("id", "3"), ("descripcion", "x y")]

def mEjemplo : DataFilterManager := init [filaUno, filaDos, filaTres] "id"

def subA : Subset := mkSubset [filaUno, filaTres] none

def subB : Subset :=
  { rows := [filaTres], parent := some "A", aplicado := false, excluidas := [] }

/-- A state in which the subset `A` was registered and the subset `B` was
created from `A` (so `B` carries the parent link to `A`). -/
def mCascada : DataFilterManager :=
  { df_original := [filaUno, filaDos, filaTres]
    df_principal := [filaUno, filaDos, filaTres]
    columna_id := "id"
    subsets := [("principal", mkSubset [filaUno, filaDos, filaTres] none),
                ("A", subA), ("B", subB), ("ultimo", subB)]
    historial := [] }

/-- A state with one history entry and one extra subset, as left by a
deletion that already removed `filaUno` from the working table. -/
def mConHistorial : DataFilterManager :=
  { df_original := [filaUno, filaDos]
    df_principal := [filaDos]
    columna_id := "id"
    subsets := [("principal", mkSubset [filaDos] none),
                ("A", mkSubset [filaUno] none)]
    historial := [[filaUno, filaDos]] }

def subBPadreVacio : Subset :=
  { rows := [filaTres], parent := some "", aplicado := false, excluidas := [] }

/-- A state in which the parent subset was registered under the
empty-string name — reachable, because the duplicate check of
`filtrar_por_palabra` accepts any unregistered name — and the child
carries the parent link to that name. -/
def mPadreVacio : DataFilterManager :=
  { df_original := [filaUno, filaDos, filaTres]
    df_principal := [filaUno, filaDos, filaTres]
    columna_id := "id"
    subsets := [("principal", mkSubset [filaUno, filaDos, filaTres] none),
                ("", subA), ("B", subBPadreVacio), ("ultimo", subBPadreVacio)]
    historial := [] }

def subBDePrincipal : Subset :=
  { rows := [filaTres], parent := some "principal", aplicado := false, excluidas := [] }

/-- A state in which the child subset was created directly from the
principal alias (`filtrar_subset` with source `principal`), so its
parent link names `principal`. -/
def mCascadaPrincipal : DataFilterManager :=
  { df_original := [filaUno, filaDos, filaTres]
    df_principal := [filaUno, filaDos, filaTres]
    columna_id := "id"
    subsets := [("principal", mkSubset [filaUno, filaDos, filaTres] none),
                ("B", subBDePrincipal), ("ultimo", subBDePrincipal)]
    historial := [] }

/-! ### Store lemmas -/

theorem storeGet_insert_self (s : Store) (n : String) (v : Subset) :
    storeGet (storeInsert s n v) n = some v := by
  induction s with
  | nil => simp [storeInsert, storeGet]
  | cons hd t ih =>
      obtain ⟨k, w⟩ := hd
      by_cases hk : k = n
      · simp [storeInsert, storeGet, hk]
      · simp [storeInsert, storeGet, hk, ih]

theorem storeGet_insert_ne (s : Store) (n n' : String) (v : Subset)
    (h : n' ≠ n) : storeGet (storeInsert s n v) n' = storeGet s n' := by
  have hne : ¬ n = n' := fun hh => h hh.symm
  induction s with
  | nil => simp [storeInsert, storeGet, hne]
  | cons hd t ih =>
      obtain ⟨k, w⟩ := hd
      by_cases hk : k = n
      · subst hk
        simp [storeInsert, storeGet, hne]
      · simp only [storeInsert, storeGet, if_neg hk]
        by_cases hk' : k = n'
        · simp [storeGet, hk']
        · simp [storeGet, hk', ih]

theorem storeContains_insert_self (s : Store) (n : String) (v : Subset) :
    storeContains (storeInsert s n v) n = true := by
  simp [storeContains, storeGet_insert_self]

theorem storeContains_insert_ne (s : Store) (n n' : String) (v : Subset)
    (h : n' ≠ n) : storeContains (storeInsert s n v) n' = storeContains s n' := by
  simp [storeContains, storeGet_insert_ne s n n' v h]

/-! ### Key-diff lemmas -/

theorem drop_lines_key_idem (t r : List Row) (k : String) :
    drop_lines_key (drop_lines_key t r k) r k = drop_lines_key t r k := by
  simp [drop_lines_key, List.filter_filter]

theorem drop_lines_key_nil_ref (t : List Row) (k : String) :
    drop_lines_key t [] k = t := by
  simp [drop_lines_key]

/-! ### Frame lemmas: no operation touches the construction snapshot -/

theorem filtrar_por_palabra_df_original (m : DataFilterManager) (columna : String)
    (palabras : List String) (nombre condicional : String) (cs me up : Bool)
    (par : Option String) :
    (filtrar_por_palabra m columna palabras nombre condicional cs me up par).2.df_original
      = m.df_original := by
  unfold filtrar_por_palabra
  split
  · rfl
  · dsimp only
    split <;> rfl

theorem filtrar_subset_df_original (m : DataFilterManager)
    (nombre_origen columna : String) (palabras : List String)
    (nombre condicional : String) (cs me : Bool) :
    (filtrar_subset m nombre_origen columna palabras nombre condicional cs
      me).2.df_original = m.df_original := by
  unfold filtrar_subset
  split
  · dsimp only
    apply filtrar_por_palabra_df_original
  · rfl

theorem aplicar_filtro_df_original (m : DataFilterManager) (nombre : String)
    (prop : Bool) :
    (aplicar_filtro m nombre prop).2.df_original = m.df_original := by
  unfold aplicar_filtro
  split
  · rfl
  · split
    · rfl
    · dsimp only
      repeat' split
      all_goals rfl

theorem restaurar_anterior_df_original (m : DataFilterManager) :
    (restaurar_anterior m).df_original = m.df_original := by
  unfold restaurar_anterior
  split <;> rfl

theorem agregar_excluidos_df_original (m : DataFilterManager) (nombre : String)
    (palabras : List String) :
    (agregar_excluidos m nombre palabras).2.df_original = m.df_original := by
  unfold agregar_excluidos
  split <;> rfl

/-! ### Behaviour lemmas for subset creation -/

theorem filtrar_por_palabra_df_principal (m : DataFilterManager) (columna : String)
    (palabras : List String) (nombre condicional : String) (cs me up : Bool)
    (par : Option String) :
    (filtrar_por_palabra m columna palabras nombre condicional cs me up par).2.df_principal
      = m.df_principal := by
  unfold filtrar_por_palabra
  split
  · rfl
  · dsimp only
    split <;> rfl

theorem filtrar_por_palabra_historial (m : DataFilterManager) (columna : String)
    (palabras : List String) (nombre condicional : String) (cs me up : Bool)
    (par : Option String) :
    (filtrar_por_palabra m columna palabras nombre condicional cs me up par).2.historial
      = m.historial := by
  unfold filtrar_por_palabra
  split
  · rfl
  · dsimp only
    split <;> rfl

/-- A name that is already registered is untouched by `filtrar_por_palabra`,
except for the `ultimo` alias. -/
theorem filtrar_por_palabra_get_otro (m : DataFilterManager) (columna : String)
    (palabras : List String) (nombre condicional : String) (cs me up : Bool)
    (par : Option String) (x : String)
    (hx : storeContains m.subsets x = true) (hxu : x ≠ "ultimo") :
    storeGet (filtrar_por_palabra m columna palabras nombre condicional cs me up
      par).2.subsets x = storeGet m.subsets x := by
  unfold filtrar_por_palabra
  split
  · rfl
  · rename_i hdup
    dsimp only
    split
    · rfl
    · dsimp only
      have hxn : x ≠ nombre := by
        intro hh
        rw [hh] at hx
        exact hdup hx
      rw [storeGet_insert_ne _ _ _ _ hxu, storeGet_insert_ne _ _ _ _ hxn]

/-- After a successful `filtrar_por_palabra` the new name is registered. -/
theorem filtrar_por_palabra_ok_contains (m : DataFilterManager) (columna : String)
    (palabras : List String) (nombre condicional : String) (cs me up : Bool)
    (par : Option String) (filas : List Row)
    (hok : (filtrar_por_palabra m columna palabras nombre condicional cs me up
      par).1 = .ok filas) :
    storeContains (filtrar_por_palabra m columna palabras nombre condicional cs me
      up par).2.subsets nombre = true := by
  unfold filtrar_por_palabra at hok ⊢
  split at hok
  · simp at hok
  · rename_i hdup
    dsimp only at hok ⊢
    rw [if_neg hdup]
    split at hok
    · simp at hok
    · rename_i filas2 heq
      by_cases hnu : nombre = "ultimo"
      · rw [hnu]
        exact storeContains_insert_self _ _ _
      · rw [storeContains_insert_ne _ _ _ _ hnu]
        exact storeContains_insert_self _ _ _

/-! ### Behaviour lemmas for `aplicar_filtro` -/

theorem aplicar_filtro_empty (m : DataFilterManager) (nombre : String)
    (sb : Subset) (prop : Bool)
    (hget : storeGet m.subsets nombre = some sb) (he : sb.rows = []) :
    aplicar_filtro m nombre prop = (.ok (), m) := by
  unfold aplicar_filtro
  rw [hget]
  simp [he]

/-- The non-empty case of `aplicar_filtro`: the call succeeds, pushes one
snapshot of the working table onto the history, and replaces the working
table by its key-diff against the subset rows. -/
theorem aplicar_filtro_nonempty (m : DataFilterManager) (nombre : String)
    (sb : Subset) (prop : Bool)
    (hget : storeGet m.subsets nombre = some sb) (hne : sb.rows ≠ []) :
    (aplicar_filtro m nombre prop).1 = .ok () ∧
    (aplicar_filtro m nombre prop).2.historial = m.df_principal :: m.historial ∧
    (aplicar_filtro m nombre prop).2.df_principal
      = drop_lines_key m.df_principal sb.rows m.columna_id := by
  have hne' : sb.rows.isEmpty = false := by
    simp [List.isEmpty_iff, hne]
  unfold aplicar_filtro
  rw [hget]
  dsimp only
  rw [hne']
  simp only [Bool.false_eq_true, if_false]
  refine ⟨by trivial, ?_, ?_⟩ <;> (dsimp only; repeat' split) <;> rfl

/-- Without propagation, `aplicar_filtro` touches no store entry other
than the `principal` alias and the applied-flag of the subset itself. -/
theorem aplicar_filtro_get_sin_padre (m : DataFilterManager) (nombre : String)
    (sb : Subset) (hget : storeGet m.subsets nombre = some sb)
    (hne : sb.rows ≠ []) (x : String)
    (hx1 : x ≠ "principal") (hx2 : x ≠ nombre) :
    storeGet (aplicar_filtro m nombre false).2.subsets x = storeGet m.subsets x := by
  have hne' : sb.rows.isEmpty = false := by simp [List.isEmpty_iff, hne]
  unfold aplicar_filtro
  rw [hget]
  dsimp only
  rw [hne']
  simp only [Bool.false_eq_true, if_false, Bool.false_and]
  split
  · rw [storeGet_insert_ne _ _ _ _ hx1]
  · rw [storeGet_insert_ne _ _ _ _ hx2, storeGet_insert_ne _ _ _ _ hx1]

/-- With propagation, `aplicar_filtro` replaces the rows of the parent
subset (when it is distinct from the `principal` alias and from the
subset itself) by their key-diff against the subset rows. -/
theorem aplicar_filtro_get_padre (m : DataFilterManager) (nombre padreN : String)
    (sb A : Subset)
    (hget : storeGet m.subsets nombre = some sb) (hne : sb.rows ≠ [])
    (hpar : sb.parent = some padreN) (hp0 : padreN ≠ "")
    (hpA : storeGet m.subsets padreN = some A)
    (hp1 : padreN ≠ "principal") (hp2 : padreN ≠ nombre) :
    storeGet (aplicar_filtro m nombre true).2.subsets padreN
      = some { A with rows := drop_lines_key A.rows sb.rows m.columna_id } := by
  have hne' : sb.rows.isEmpty = false := by simp [List.isEmpty_iff, hne]
  have htruthy : parentTruthy sb.parent = true := by
    rw [hpar]
    simp [parentTruthy, hp0]
  unfold aplicar_filtro
  rw [hget]
  dsimp only
  rw [hne']
  simp only [Bool.false_eq_true, if_false, htruthy, Bool.true_and, if_true]
  rw [hpar]
  dsimp only
  rw [storeGet_insert_ne _ _ _ _ hp1, hpA]
  dsimp only
  split
  · rw [storeGet_insert_self]
  · rw [storeGet_insert_ne _ _ _ _ hp2, storeGet_insert_self]

/-- A parent link holding the empty string is falsy in Python, so the
cascade of `aplicar_filtro` (line 252) is silently skipped even with
propagation requested: every entry other than the `principal` alias and
the subset itself is untouched. -/
theorem aplicar_filtro_padre_falsy (m : DataFilterManager) (nombre : String)
    (sb : Subset)
    (hget : storeGet m.subsets nombre = some sb) (hne : sb.rows ≠ [])
    (hpar : sb.parent = some "") (x : String)
    (hx1 : x ≠ "principal") (hx2 : x ≠ nombre) :
    storeGet (aplicar_filtro m nombre true).2.subsets x = storeGet m.subsets x := by
  have hne' : sb.rows.isEmpty = false := by simp [List.isEmpty_iff, hne]
  have hfalsy : parentTruthy sb.parent = false := by
    rw [hpar]
    simp [parentTruthy]
  unfold aplicar_filtro
  rw [hget]
  dsimp only
  rw [hne']
  simp only [Bool.false_eq_true, if_false, hfalsy, Bool.and_false]
  split
  · rw [storeGet_insert_ne _ _ _ _ hx1]
  · rw [storeGet_insert_ne _ _ _ _ hx2, storeGet_insert_ne _ _ _ _ hx1]

/-- After refreshing the `principal` alias with the key-diffed table, an
optional cascade insert (into any parent name, the alias itself included)
leaves the rows registered under `principal` equal to the key-diffed
table; the alias case is saved by idempotence of the key-diff. -/
theorem principal_rows_tras_cascada (s : Store) (P ref : List Row) (key : String)
    (t : Store)
    (ht : t = storeInsert s "principal" (mkSubset (drop_lines_key P ref key) none) ∨
      ∃ pn padre,
        storeGet (storeInsert s "principal"
          (mkSubset (drop_lines_key P ref key) none)) pn = some padre ∧
        t = storeInsert (storeInsert s "principal"
          (mkSubset (drop_lines_key P ref key) none)) pn
            { padre with rows := drop_lines_key padre.rows ref key }) :
    (storeGet t "principal").map Subset.rows = some (drop_lines_key P ref key) := by
  rcases ht with rfl | ⟨pn, padre, hpn, rfl⟩
  · simp [storeGet_insert_self, mkSubset]
  · by_cases h : "principal" = pn
    · subst h
      rw [storeGet_insert_self] at hpn
      cases hpn
      rw [storeGet_insert_self]
      simp [mkSubset, drop_lines_key_idem]
    · rw [storeGet_insert_ne _ _ _ _ h]
      simp [storeGet_insert_self, mkSubset]

/-- Marking a subset applied never changes the rows registered under the
`principal` alias. -/
theorem principal_rows_tras_marcado (t : Store) (nombre : String) (u : Store)
    (hu : u = t ∨ ∃ sb2, storeGet t nombre = some sb2 ∧
      u = storeInsert t nombre { sb2 with aplicado := true }) :
    (storeGet u "principal").map Subset.rows
      = (storeGet t "principal").map Subset.rows := by
  rcases hu with rfl | ⟨sb2, hsb, rfl⟩
  · rfl
  · by_cases h : "principal" = nombre
    · subst h
      rw [storeGet_insert_self, hsb]
      rfl
    · rw [storeGet_insert_ne _ _ _ _ h]

/-- `aplicar_filtro` preserves the `principal`-alias invariant, in every
branch: unknown name, empty subset, cascade into an ordinary parent,
cascade into the alias itself, and the final applied-marking. -/
theorem aplicar_filtro_principalInv (m : DataFilterManager) (nombre : String)
    (prop : Bool) (hInv : principalInv m) :
    principalInv (aplicar_filtro m nombre prop).2 := by
  unfold aplicar_filtro
  split
  · exact hInv
  · rename_i sb hget
    split
    · exact hInv
    · unfold principalInv
      dsimp only
      split
      · split
        · split
          · exact principal_rows_tras_cascada m.subsets m.df_principal sb.rows
              m.columna_id _ (Or.inl rfl)
          · split
            · exact principal_rows_tras_cascada m.subsets m.df_principal sb.rows
                m.columna_id _ (Or.inl rfl)
            · rename_i padre heq2
              exact principal_rows_tras_cascada m.subsets m.df_principal sb.rows
                m.columna_id _ (Or.inr ⟨_, padre, heq2, rfl⟩)
        · exact principal_rows_tras_cascada m.subsets m.df_principal sb.rows
            m.columna_id _ (Or.inl rfl)
      · rename_i sb2 heq4
        rw [principal_rows_tras_marcado _ nombre _ (Or.inr ⟨sb2, heq4, rfl⟩)]
        split
        · split
          · exact principal_rows_tras_cascada m.subsets m.df_principal sb.rows
              m.columna_id _ (Or.inl rfl)
          · split
            · exact principal_rows_tras_cascada m.subsets m.df_principal sb.rows
                m.columna_id _ (Or.inl rfl)
            · rename_i padre heq2
              exact principal_rows_tras_cascada m.subsets m.df_principal sb.rows
                m.columna_id _ (Or.inr ⟨_, padre, heq2, rfl⟩)
        · exact principal_rows_tras_cascada m.subsets m.df_principal sb.rows
            m.columna_id _ (Or.inl rfl)

theorem principalInv_contains (m : DataFilterManager) (hInv : principalInv m) :
    storeContains m.subsets "principal" = true := by
  unfold principalInv at hInv
  unfold storeContains
  cases h : storeGet m.subsets "principal"
  · rw [h] at hInv
    simp at hInv
  · rfl

theorem filtrar_por_palabra_principalInv (m : DataFilterManager) (columna : String)
    (palabras : List String) (nombre condicional : String) (cs me up : Bool)
    (par : Option String) (hInv : principalInv m) :
    principalInv (filtrar_por_palabra m columna palabras nombre condicional cs me
      up par).2 := by
  unfold principalInv
  rw [filtrar_por_palabra_df_principal,
    filtrar_por_palabra_get_otro m columna palabras nombre condicional cs me up par
      "principal" (principalInv_contains m hInv) (by decide)]
  exact hInv

theorem filtrar_subset_principalInv (m : DataFilterManager)
    (nombre_origen columna : String) (palabras : List String)
    (nombre condicional : String) (cs me : Bool) (hInv : principalInv m) :
    principalInv (filtrar_subset m nombre_origen columna palabras nombre
      condicional cs me).2 := by
  unfold filtrar_subset
  split
  · dsimp only
    unfold principalInv
    dsimp only
    rw [filtrar_por_palabra_get_otro
      { df_original := m.df_original
        df_principal := (Option.map Subset.rows (storeGet m.subsets nombre_origen)).getD m.df_principal
        columna_id := m.columna_id
        subsets := m.subsets
        historial := m.historial }
      columna palabras nombre condicional cs me true (some nombre_origen)
      "principal" (principalInv_contains m hInv) (by decide)]
    exact hInv
  · exact hInv

theorem restaurar_anterior_principalInv (m : DataFilterManager)
    (hInv : principalInv m) : principalInv (restaurar_anterior m) := by
  unfold restaurar_anterior
  split
  · exact hInv
  · unfold principalInv
    dsimp only
    rw [storeGet_insert_self]
    rfl

theorem restaurar_todo_principalInv (m : DataFilterManager) :
    principalInv (restaurar_todo m) := by
  unfold principalInv restaurar_todo
  simp [storeGet, mkSubset]

theorem agregar_excluidos_principalInv (m : DataFilterManager)
    (nombre : String) (palabras : List String) (hInv : principalInv m) :
    principalInv (agregar_excluidos m nombre palabras).2 := by
  unfold agregar_excluidos
  split
  · exact hInv
  · rename_i sb hsb
    unfold principalInv at hInv ⊢
    dsimp only
    by_cases h : "principal" = nombre
    · subst h
      rw [storeGet_insert_self]
      rw [hsb] at hInv
      simpa using hInv
    · rw [storeGet_insert_ne _ _ _ _ h]
      exact hInv

theorem init_principalInv (df : List Row) (columna_id : String) :
    principalInv (init df columna_id) := by
  unfold principalInv init
  simp [storeGet, mkSubset]

/-- C9: calling `restaurar_anterior` (undo_last_deletion) with an empty
history leaves the whole state unchanged and returns normally instead of
raising. -/
theorem C9_undo_empty_history_noop (m : DataFilterManager)
    (h : m.historial = []) : restaurar_anterior m = m := by
  unfold restaurar_anterior
  rw [h]

/-- Witness for C9 on a concrete fresh manager. -/
theorem C9_undo_empty_history_noop_witness :
    restaurar_anterior (init [[("id", "1")]] "id") = init [[("id", "1")]] "id" :=
  C9_undo_empty_history_noop (init [[("id", "1")]] "id") rfl

/-- C7: `filtrar_subset` (create_subset_from_subset) leaves the working
principal table equal to its value before the call, on every input and
every outcome (normal return, duplicate target name, missing source,
filtering error): the temporary swap of `df_principal` is restored
unconditionally. -/
theorem C7_filtrar_subset_preserva_principal (m : DataFilterManager)
    (nombre_origen columna : String) (palabras : List String) (nombre : String)
    (condicional : String) (case_sensitive match_exacto : Bool) :
    (filtrar_subset m nombre_origen columna palabras nombre condicional
      case_sensitive match_exacto).2.df_principal = m.df_principal := by
  unfold filtrar_subset
  split <;> rfl

/-- C8: `restaurar_todo` (reset_all), from every prior state, restores
the principal table to the construction snapshot `df_original`, leaves
the store holding only the `principal` alias over that snapshot, and
clears the history; and `df_original` really is the snapshot taken at
construction, since `init` sets it and no operation ever changes it. -/
theorem C8_restaurar_todo_resets :
    (∀ m : DataFilterManager,
      (restaurar_todo m).df_principal = m.df_original ∧
      (restaurar_todo m).subsets = [("principal", mkSubset m.df_original none)] ∧
      (restaurar_todo m).historial = []) ∧
    (∀ df columna_id, (init df columna_id).df_original = df) ∧
    (∀ m columna palabras nombre condicional cs me up par,
      (filtrar_por_palabra m columna palabras nombre condicional cs me up
        par).2.df_original = m.df_original) ∧
    (∀ m nombre_origen columna palabras nombre condicional cs me,
      (filtrar_subset m nombre_origen columna palabras nombre condicional cs
        me).2.df_original = m.df_original) ∧
    (∀ m nombre prop, (aplicar_filtro m nombre prop).2.df_original = m.df_original) ∧
    (∀ m, (restaurar_anterior m).df_original = m.df_original) ∧
    (∀ m nombre palabras,
      (agregar_excluidos m nombre palabras).2.df_original = m.df_original) ∧
    (∀ m, (restaurar_todo m).df_original = m.df_original) := by
  exact ⟨fun m => ⟨rfl, rfl, rfl⟩, fun df c => rfl,
    filtrar_por_palabra_df_original, filtrar_subset_df_original,
    aplicar_filtro_df_original, restaurar_anterior_df_original,
    agregar_excluidos_df_original, fun m => rfl⟩

/-- C2: on any registered subset with a non-empty row set, `aplicar_filtro`
followed immediately by `restaurar_anterior` restores the principal table
to exactly the row set it held before the deletion. -/
theorem C2_roundtrip (m : DataFilterManager) (nombre : String) (sb : Subset)
    (prop : Bool) (hget : storeGet m.subsets nombre = some sb)
    (hne : sb.rows ≠ []) :
    (restaurar_anterior (aplicar_filtro m nombre prop).2).df_principal
      = m.df_principal := by
  have h := (aplicar_filtro_nonempty m nombre sb prop hget hne).2.1
  unfold restaurar_anterior
  rw [h]

/-- Witness for C2: apply a deletion of the whole table and undo it. -/
theorem C2_roundtrip_witness :
    (restaurar_anterior (aplicar_filtro mEjemplo "principal" true).2).df_principal
      = mEjemplo.df_principal :=
  C2_roundtrip mEjemplo "principal" (mkSubset [filaUno, filaDos, filaTres] none)
    true (by decide) (by decide)

/-- C3: with a non-empty history, `restaurar_anterior` replaces the
principal table (and its store alias) with the popped snapshot, pops the
history, and leaves every other store entry untouched; in particular a
parent-subset mutation done by the preceding `aplicar_filtro` is not
reverted. -/
theorem C3_undo_frame (m : DataFilterManager) (h : List Row)
    (t : List (List Row)) (hh : m.historial = h :: t) :
    (restaurar_anterior m).df_principal = h ∧
    (restaurar_anterior m).historial = t ∧
    storeGet (restaurar_anterior m).subsets "principal" = some (mkSubset h none) ∧
    ∀ x, x ≠ "principal" →
      storeGet (restaurar_anterior m).subsets x = storeGet m.subsets x := by
  unfold restaurar_anterior
  rw [hh]
  exact ⟨rfl, rfl, storeGet_insert_self _ _ _,
    fun x hx => storeGet_insert_ne _ _ _ _ hx⟩

/-- Witness for C3 on a state with one history entry and one ordinary
subset `A`: the snapshot comes back and `A` is untouched. -/
theorem C3_undo_frame_witness :
    (restaurar_anterior mConHistorial).df_principal = [filaUno, filaDos] ∧
    storeGet (restaurar_anterior mConHistorial).subsets "A"
      = storeGet mConHistorial.subsets "A" :=
  ⟨(C3_undo_frame mConHistorial [filaUno, filaDos] [] rfl).1,
    (C3_undo_frame mConHistorial [filaUno, filaDos] [] rfl).2.2.2 "A" (by decide)⟩

/-- C4, counterexample: the claim says creating a subset under a reserved
name never raises `DuplicateNameError`; but the duplicate check of
`filtrar_por_palabra` (line 93) does not exclude the reserved aliases,
and `principal` is registered from construction, so the call raises. -/
theorem C4_counterexample :
    (filtrar_por_palabra (init [[("id", "1")]] "id") "id" ["1"] "principal"
      "OR" false false true none).1 = .error .duplicateName := by
  rfl

/-- C4, amended: creating a subset under a reserved name raises
`duplicateName` exactly like any other name whenever that alias is
already present in the store (which for `principal` is always), and the
failed call leaves the state unchanged; the reserved aliases are
refreshed only implicitly by the engine operations, never overwritten by
a create call naming them. -/
theorem C4_amended_reserved_raises (m : DataFilterManager) (columna : String)
    (palabras : List String) (nombre condicional : String) (cs me up : Bool)
    (par : Option String)
    (hres : nombre = "principal" ∨ nombre = "ultimo")
    (hin : storeContains m.subsets nombre = true) :
    filtrar_por_palabra m columna palabras nombre condicional cs me up par
      = (.error .duplicateName, m) := by
  unfold filtrar_por_palabra
  rw [if_pos hin]

/-- Witness for the amended C4: creating `principal` on a fresh manager
raises and mutates nothing. -/
theorem C4_amended_witness :
    filtrar_por_palabra (init [[("id", "1")]] "id") "id" ["1"] "principal" "OR"
      false false true none
      = (.error .duplicateName, init [[("id", "1")]] "id") :=
  C4_amended_reserved_raises (init [[("id", "1")]] "id") "id" ["1"] "principal"
    "OR" false false true none (Or.inl rfl) (by decide)

/-- C5: a second creation under a name that a first successful creation
registered raises `duplicateName` and returns the state of the first
call untouched: no partial mutation of store, principal table or history
before the raise. -/
theorem C5_duplicado_sin_mutacion (m : DataFilterManager)
    (columna : String) (palabras : List String) (nombre condicional : String)
    (cs me up : Bool) (par : Option String)
    (columna2 : String) (palabras2 : List String) (condicional2 : String)
    (cs2 me2 up2 : Bool) (par2 : Option String) (filas : List Row)
    (hnr1 : nombre ≠ "principal") (hnr2 : nombre ≠ "ultimo")
    (hok : (filtrar_por_palabra m columna palabras nombre condicional cs me up
      par).1 = .ok filas) :
    filtrar_por_palabra
        (filtrar_por_palabra m columna palabras nombre condicional cs me up par).2
        columna2 palabras2 nombre condicional2 cs2 me2 up2 par2
      = (.error .duplicateName,
        (filtrar_por_palabra m columna palabras nombre condicional cs me up
          par).2) := by
  have hc := filtrar_por_palabra_ok_contains m columna palabras nombre condicional
    cs me up par filas hok
  set m1 := (filtrar_por_palabra m columna palabras nombre condicional cs me up
    par).2 with hm1
  unfold filtrar_por_palabra
  rw [if_pos hc]

/-- Witness for C5: create the subset `conX` twice on the example
manager. -/
theorem C5_duplicado_witness :
    filtrar_por_palabra
        (filtrar_por_palabra mEjemplo "descripcion" ["x"] "conX" "OR" false
          false true none).2
        "descripcion" ["y"] "conX" "OR" false false true none
      = (.error .duplicateName,
        (filtrar_por_palabra mEjemplo "descripcion" ["x"] "conX" "OR" false
          false true none).2) :=
  C5_duplicado_sin_mutacion mEjemplo "descripcion" ["x"] "conX" "OR" false false
    true none "descripcion" ["y"] "OR" false false true none
    [filaUno, filaTres] (by decide) (by decide) (by decide)

/-- C6: `aplicar_filtro` pushes a history snapshot exactly when the
subset has rows of its own: on an empty subset it is a successful no-op
that changes nothing, and on a non-empty subset it always succeeds and
pushes exactly one entry, even when the rows are already absent from the
principal table. -/
theorem C6_historial_sii_no_vacio (m : DataFilterManager) (nombre : String)
    (sb : Subset) (prop : Bool)
    (hget : storeGet m.subsets nombre = some sb) :
    (sb.rows = [] → aplicar_filtro m nombre prop = (.ok (), m)) ∧
    (sb.rows ≠ [] →
      (aplicar_filtro m nombre prop).1 = .ok () ∧
      (aplicar_filtro m nombre prop).2.historial
        = m.df_principal :: m.historial) := by
  refine ⟨fun he => aplicar_filtro_empty m nombre sb prop hget he, fun hne => ?_⟩
  have h := aplicar_filtro_nonempty m nombre sb prop hget hne
  exact ⟨h.1, h.2.1⟩

/-- Witness for C6: deleting the subset `B` of `mCascada` — whose rows
are non-empty — pushes exactly one history entry. -/
theorem C6_historial_witness :
    (aplicar_filtro mCascada "B" true).1 = .ok () ∧
    (aplicar_filtro mCascada "B" true).2.historial
      = mCascada.df_principal :: mCascada.historial :=
  (C6_historial_sii_no_vacio mCascada "B" subB true (by decide)).2 (by decide)

/-- C1, counterexample: the claim as frozen fails at two reachable
configurations.  First, a parent subset registered under the
empty-string name: the child carries a parent link that Python treats
as falsy (line 252), so propagation is silently skipped and the parent
rows stay what they were instead of becoming `A` minus `B`.  Second, a
child created directly from the `principal` alias with propagation off:
the claim demands the parent rows unchanged, but the deletion itself
refreshes the alias, so its rows shrink. -/
theorem C1_counterexample :
    ((storeGet (aplicar_filtro mPadreVacio "B" true).2.subsets "").map
        Subset.rows = some subA.rows) ∧
    (some subA.rows
      ≠ some (drop_lines_key subA.rows subBPadreVacio.rows mPadreVacio.columna_id)) ∧
    ((storeGet (aplicar_filtro mCascadaPrincipal "B" false).2.subsets
        "principal").map Subset.rows
      ≠ (storeGet mCascadaPrincipal.subsets "principal").map Subset.rows) := by
  refine ⟨by decide, by decide, by decide⟩

/-- C1, amended: with principal table `P`, a parent subset `A`
registered under name `a`, and a child subset `B` carrying the parent
link to `a` (as `filtrar_subset` creates it, with the rows of `B` drawn
from `A` and those of `A` from `P`), deleting `B` yields
`principal = P` minus the rows whose key occurs in `B`, with either
propagation flag.  With propagation on, the rows of `A` are replaced by
`A` minus `B` provided `a` is a truthy name other than the `principal`
alias; a parent registered under the empty-string name is falsy in the
line-252 test, so propagation is silently skipped and `A` stays
unchanged.  With propagation off, `A` is unchanged unless it is the
`principal` alias itself.  When `a` is the `principal` alias (whose
rows are `P`), the alias refresh makes its rows `P` minus `B`, equal to
`A` minus `B`, under either flag. -/
theorem C1_cascada_amended (m : DataFilterManager) (a b : String) (A B : Subset)
    (hA : storeGet m.subsets a = some A) (hB : storeGet m.subsets b = some B)
    (hparent : B.parent = some a)
    (hBA : ∀ r ∈ B.rows, r ∈ A.rows)
    (hAP : ∀ r ∈ A.rows, r ∈ m.df_principal)
    (hab : a ≠ b)
    (hPr : a = "principal" → A.rows = m.df_principal) :
    ((aplicar_filtro m b true).2.df_principal
      = drop_lines_key m.df_principal B.rows m.columna_id) ∧
    ((aplicar_filtro m b false).2.df_principal
      = drop_lines_key m.df_principal B.rows m.columna_id) ∧
    (a ≠ "" → a ≠ "principal" →
      storeGet (aplicar_filtro m b true).2.subsets a
        = some { A with rows := drop_lines_key A.rows B.rows m.columna_id }) ∧
    (a ≠ "principal" →
      storeGet (aplicar_filtro m b false).2.subsets a = some A) ∧
    (a = "principal" →
      ((storeGet (aplicar_filtro m b true).2.subsets a).map Subset.rows
        = some (drop_lines_key A.rows B.rows m.columna_id)) ∧
      ((storeGet (aplicar_filtro m b false).2.subsets a).map Subset.rows
        = some (drop_lines_key A.rows B.rows m.columna_id))) ∧
    (a = "" →
      storeGet (aplicar_filtro m b true).2.subsets a = some A) := by
  have hdf : ∀ fl : Bool, (aplicar_filtro m b fl).2.df_principal
      = drop_lines_key m.df_principal B.rows m.columna_id := by
    intro fl
    by_cases hBe : B.rows = []
    · rw [aplicar_filtro_empty m b B fl hB hBe, hBe, drop_lines_key_nil_ref]
    · exact (aplicar_filtro_nonempty m b B fl hB hBe).2.2
  refine ⟨hdf true, hdf false, ?_, ?_, ?_, ?_⟩
  · intro hA0 haP
    by_cases hBe : B.rows = []
    · rw [aplicar_filtro_empty m b B true hB hBe, hBe, drop_lines_key_nil_ref]
      exact hA
    · exact aplicar_filtro_get_padre m b a B A hB hBe hparent hA0 hA haP hab
  · intro haP
    by_cases hBe : B.rows = []
    · rw [aplicar_filtro_empty m b B false hB hBe]
      exact hA
    · rw [aplicar_filtro_get_sin_padre m b B hB hBe a haP hab]
      exact hA
  · intro hp
    subst hp
    have hInv : principalInv m := by
      unfold principalInv
      rw [hA]
      simp [hPr rfl]
    constructor
    · have h := aplicar_filtro_principalInv m b true hInv
      unfold principalInv at h
      rw [h, hdf true, hPr rfl]
    · have h := aplicar_filtro_principalInv m b false hInv
      unfold principalInv at h
      rw [h, hdf false, hPr rfl]
  · intro h0
    subst h0
    by_cases hBe : B.rows = []
    · rw [aplicar_filtro_empty m b B true hB hBe]
      exact hA
    · rw [aplicar_filtro_padre_falsy m b B hB hBe hparent "" (by decide) hab]
      exact hA

/-- Witness for the amended C1 on `mCascada`: deleting `B` (the row
with id 3) removes that row from the principal table, and from `A`
exactly when propagation is on. -/
theorem C1_cascada_amended_witness :
    ((aplicar_filtro mCascada "B" true).2.df_principal
      = drop_lines_key mCascada.df_principal subB.rows mCascada.columna_id) ∧
    (storeGet (aplicar_filtro mCascada "B" true).2.subsets "A"
      = some { subA with
          rows := drop_lines_key subA.rows subB.rows mCascada.columna_id }) ∧
    (storeGet (aplicar_filtro mCascada "B" false).2.subsets "A" = some subA) := by
  have h := C1_cascada_amended mCascada "A" "B" subA subB (by decide) (by decide)
    (by decide) (by decide) (by decide) (by decide) (by decide)
  exact ⟨h.1, h.2.2.1 (by decide) (by decide), h.2.2.2.1 (by decide)⟩

/-- C10: the `principal` store entry carries exactly the rows of the
current working table after construction and after every public
operation: subset creation, subset-from-subset creation, deletion, undo,
full reset, and exclusion-word update. -/
theorem C10_alias_principal :
    (∀ df columna_id, principalInv (init df columna_id)) ∧
    (∀ m columna palabras nombre condicional cs me up par, principalInv m →
      principalInv (filtrar_por_palabra m columna palabras nombre condicional cs
        me up par).2) ∧
    (∀ m nombre_origen columna palabras nombre condicional cs me, principalInv m →
      principalInv (filtrar_subset m nombre_origen columna palabras nombre
        condicional cs me).2) ∧
    (∀ m nombre prop, principalInv m →
      principalInv (aplicar_filtro m nombre prop).2) ∧
    (∀ m, principalInv m → principalInv (restaurar_anterior m)) ∧
    (∀ m, principalInv (restaurar_todo m)) ∧
    (∀ m nombre palabras, principalInv m →
      principalInv (agregar_excluidos m nombre palabras).2) :=
  ⟨init_principalInv,
    fun m columna palabras nombre condicional cs me up par h =>
      filtrar_por_palabra_principalInv m columna palabras nombre condicional cs
        me up par h,
    fun m nombre_origen columna palabras nombre condicional cs me h =>
      filtrar_subset_principalInv m nombre_origen columna palabras nombre
        condicional cs me h,
    fun m nombre prop h => aplicar_filtro_principalInv m nombre prop h,
    restaurar_anterior_principalInv,
    restaurar_todo_principalInv,
    fun m nombre palabras h => agregar_excluidos_principalInv m nombre palabras h⟩

/-- Witness for C10: the invariant holds on the example manager and is
kept by a cascading deletion on `mCascada`. -/
theorem C10_alias_principal_witness :
    principalInv (aplicar_filtro mCascada "B" true).2 :=
  C10_alias_principal.2.2.2.1 mCascada "B" true rfl

end CreadorConjuntos
